import Mathlib

/-!
Shallow embedding of the FreeBSD jail-backed container lifecycle manager
(`libcontainer/container_freebsd.go`, the iteration of the file that keeps
the backend instance id in the `jailId` field).

Host interactions — `os.Stat` on the readiness fifo, the `jls`/`jexec`
queries, descriptor-file writes, process spawn and wait — are modelled by a
read-only oracle `Host` of query outcomes, plus a mutable `World` of the
filesystem facts that the code changes: fifo existence, state-record
existence, and the number of backend (`jail -c`) launches actually spawned.
Timestamps recorded in the `created` field are not observable by any claim
and are omitted.
-/

/-- Container status enum (`Status`). -/
inductive Status where
  | Stopped
  | Created
  | Running
  | Paused
deriving DecidableEq, Repr

/-- Errors returned by the embedded functions: `systemError` stands for the
`newSystemErrorWithCause*` wrappers, `errMsg` for a plain `fmt.Errorf`. -/
inductive RErr where
  | systemError : String → RErr
  | errMsg : String → RErr
deriving DecidableEq, Repr

/-- Read-only oracle for the outcomes of host queries and OS calls made
during one scenario (the "host truth" held fixed between calls). -/
structure Host where
  /-- Result of `getInitProcessTime` (the `jexec` read of the launch
  timestamp marker): `none` means the command failed, e.g. the instance is
  gone from the host. -/
  initProcTime : Option String
  /-- Result of `getJailId` (the `jls` listing): `""` when the listing
  fails or no line matches the container's name. -/
  jlsId : String
  /-- Whether a `dev` directory exists under the rootfs. -/
  devDirExists : Bool
  /-- `Config.HostRootUID` / `HostRootGID` succeed. -/
  rootIdsOk : Bool
  /-- `syscall.Mkfifo` succeeds. -/
  fifoCreateOk : Bool
  /-- `os.Chown` on the fifo succeeds. -/
  chownOk : Bool
  /-- `os.Create` + JSON write of the state record succeed. -/
  stateCreateOk : Bool
  /-- `ioutil.WriteFile` of `jail.conf` succeeds. -/
  confWriteOk : Bool
  /-- `cmd.Start()` on `/usr/sbin/jail ... -c` succeeds. -/
  spawnOk : Bool
  /-- `cmd.Wait()` on the launch command returned an error that is not an
  `*exec.ExitError` (an abnormal early failure of the backend call). -/
  waitErr : Bool
  /-- `cmd.Start()` on `/usr/sbin/jail -r` (destroy) succeeds. -/
  destroySpawnOk : Bool
  /-- `cmd.Wait()` on the destroy command returned a non-exit error; the
  code stores it in `waitErr` and never reads it again, so it is recorded
  here only to document the discard. -/
  destroyWaitErr : Bool
  /-- `os.OpenFile` of the fifo for reading succeeds. -/
  fifoOpenOk : Bool
  /-- `ioutil.ReadAll` of the fifo: `none` means the read itself failed,
  `some d` means it returned payload `d` at end of file. -/
  fifoData : Option String
deriving DecidableEq, Repr

/-- Mutable filesystem facts the code changes. -/
structure World where
  /-- The readiness fifo exists at `<rootfs>/exec.fifo`. -/
  fifoExists : Bool
  /-- The persisted state record exists at `<root>/state.json`. -/
  stateFileExists : Bool
  /-- Number of backend launch commands (`jail -c`) spawned so far. -/
  launchCount : Nat
deriving DecidableEq, Repr

/-- The `freebsdContainer` struct (the fields the lifecycle logic reads). -/
structure FreebsdContainer where
  id : String
  rootfs : String
  jailId : String
  initProcessStartTime : String
  /-- The `state containerState` field, modelled by the status it reports. -/
  state : Status
deriving DecidableEq, Repr

/-- The `Process` argument of `Start`/`Run` (only `Args` is read). -/
structure Process where
  args : List String
deriving DecidableEq, Repr

/-- `doesInitProcessExist`: compares the live launch timestamp fetched via
`getInitProcessTime` with the remembered `initProcessStartTime`; a query
failure yields `(false, systemError)`. -/
def FreebsdContainer.doesInitProcessExist (c : FreebsdContainer) (h : Host) :
    Bool × Option RErr :=
  match h.initProcTime with
  | none => (false, some (RErr.systemError "getting init process start time"))
  | some startTime =>
      if c.initProcessStartTime ≠ startTime then (false, none)
      else (true, none)

/-- `runType`: resolves the live run type from the jail id, the init-process
identity check, and the existence of the readiness fifo. -/
def FreebsdContainer.runType (c : FreebsdContainer) (h : Host) (w : World) :
    Status × Option RErr :=
  if c.jailId = "" then (Status.Stopped, none)
  else
    match c.doesInitProcessExist h with
    | (exist, e) =>
        if ¬exist ∨ e.isSome then (Status.Stopped, e)
        else if w.fifoExists then (Status.Created, none)
        else (Status.Running, none)

/-- `containerState.transition`: the state-object definitions live in a file
of this repository that is not under `src/`. Modelled from the spec:
"Transition to the resolved state; transitioning into the same state is a
no-op" — it always succeeds and records the resolved status. -/
def transition (c : FreebsdContainer) (s : Status) : FreebsdContainer :=
  { c with state := s }

/-- `isPaused`: stubbed to always `false` in the source. -/
def FreebsdContainer.isPaused (_ : FreebsdContainer) : Bool × Option RErr :=
  (false, none)

/-- `refreshState`: reconciles the cached state with the live run type. -/
def FreebsdContainer.refreshState (c : FreebsdContainer) (h : Host) (w : World) :
    FreebsdContainer × World × Option RErr :=
  match c.isPaused with
  | (_, some e) => (c, w, some e)
  | (paused, none) =>
      if paused then (transition c Status.Paused, w, none)
      else
        match c.runType h w with
        | (_, some e) => (c, w, some e)
        | (t, none) => (transition c t, w, none)

/-- `currentStatus`: refreshes the state and reports the resolved status. -/
def FreebsdContainer.currentStatus (c : FreebsdContainer) (h : Host) (w : World) :
    FreebsdContainer × World × Except RErr Status :=
  match c.refreshState h w with
  | (c', w', some e) => (c', w', Except.error e)
  | (c', w', none) => (c', w', Except.ok c'.state)

/-- `createExecFifo`: resolves root uid/gid, deletes a stale fifo if one is
found (the `AlreadyExists` error built by `fmt.Errorf` in that branch is
discarded by the source — no `return`), then creates and chowns the fifo. -/
def FreebsdContainer.createExecFifo (_ : FreebsdContainer) (h : Host) (w : World) :
    World × Option RErr :=
  if h.rootIdsOk then
    let w1 : World := { w with fifoExists := false }
    if h.fifoCreateOk then
      let w2 : World := { w1 with fifoExists := true }
      if h.chownOk then (w2, none)
      else (w2, some (RErr.systemError "chown exec fifo"))
    else (w1, some (RErr.systemError "mkfifo"))
  else (w, some (RErr.systemError "resolving host root uid gid"))

/-- `deleteExecFifo`: removes the fifo (errors from `os.Remove` ignored). -/
def deleteExecFifo (w : World) : World :=
  { w with fifoExists := false }

/-- The `InitProcessStartTime` field computed by `currentState`: the
`getInitProcessTime` query is consulted only when a jail id is known, and
its error is discarded, leaving the empty string. -/
def FreebsdContainer.stateStartTime (c : FreebsdContainer) (h : Host) : String :=
  if c.jailId ≠ "" then h.initProcTime.getD "" else ""

/-- `saveState`: `os.Create` on the state record path then a JSON write. -/
def saveState (h : Host) (w : World) : World × Option RErr :=
  if h.stateCreateOk then ({ w with stateFileExists := true }, none)
  else (w, some (RErr.systemError "create state file"))

/-- `deleteState`: `os.Remove` of the state record. -/
def deleteState (w : World) : World :=
  { w with stateFileExists := false }

/-- `markCreated`: sets the `createdState`, persists via `updateState`
(`currentState` + `saveState`), then remembers the snapshot's
`InitProcessStartTime` as the identity token. -/
def FreebsdContainer.markCreated (c : FreebsdContainer) (h : Host) (w : World) :
    FreebsdContainer × World × Option RErr :=
  let c1 : FreebsdContainer := { c with state := Status.Created }
  let st := c1.stateStartTime h
  match saveState h w with
  | (w', some e) => (c1, w', some e)
  | (w', none) => ({ c1 with initProcessStartTime := st }, w', none)

/-- Go rendering of a string value by the `%#v` verb (`strconv.Quote`):
backslash, double quote and the common control characters are escaped, the
other characters of the parameter values the program renders are kept
verbatim. -/
def goQuoteChar (ch : Char) : String :=
  if ch = '\\' then "\\\\"
  else if ch = '"' then "\\\""
  else if ch = '\n' then "\\n"
  else if ch = '\t' then "\\t"
  else String.singleton ch

/-- Go `%#v` of a whole string. -/
def goQuote (s : String) : String :=
  "\"" ++ String.join (s.data.map goQuoteChar) ++ "\""

/-- One descriptor line: a tab, then `key=%#v(value);`. -/
def renderLine (kv : String × String) : String :=
  "\t" ++ kv.1 ++ "=" ++ goQuote kv.2 ++ ";"

/-- Descriptor rendering in `start`: format every parameter as a line,
`sort.Strings` the lines, join with newlines inside an `id` block. The
parameter list carries the map's iteration order, which Go leaves
unspecified. -/
def renderConf (cid : String) (params : List (String × String)) : String :=
  cid ++ " \x7b\n" ++
    String.intercalate "\n" (List.insertionSort (· ≤ ·) (params.map renderLine)) ++
    "\n\x7d\n"

/-- The command-line join in `start`: a space is written between entries
only when the buffer is already non-empty. -/
def joinArgs (args : List String) : String :=
  args.foldl (fun buf v => if buf.length > 0 then buf ++ " " ++ v else buf ++ v) ""

/-- The `exec.fifo` filename constant. -/
def execFifoFilename : String := "exec.fifo"

/-- Modelled from the spec: the launch-timestamp marker filename constant
(`launchTmStampFilename`) is declared in a file of this repository that is
not under `src/`; the spec describes it as the in-instance marker written by
the init command. Its exact value affects no claim. -/
def launchTmStampFilename : String := "launch_timestamp"

/-- The `exec.start` command rendered in `start`. -/
def jailStartCmd : String :=
  "/bin/sh /etc/rc; /bin/echo 0 > /" ++ execFifoFilename ++
    "; /bin/date +%Y%m%d%H%M%S > /" ++ launchTmStampFilename

/-- The `exec.stop` command rendered in `start`. -/
def jailStopCmd : String :=
  "/bin/rm " ++ launchTmStampFilename ++ "; /bin/sh /etc/rc.shutdown"

/-- The parameter map built in `start`, as the list of its entries in
insertion order; the devfs entries are added only when the rootfs has a
`dev` directory. -/
def FreebsdContainer.startParams (c : FreebsdContainer) (cmdLine : String)
    (devDirExists : Bool) : List (String × String) :=
  let base : List (String × String) :=
    [("exec.clean", "true"),
     ("exec.start", jailStartCmd),
     ("exec.stop", jailStopCmd),
     ("host.hostname", c.id),
     ("path", c.rootfs),
     ("command", cmdLine)]
  if devDirExists then
    base ++ [("mount.devfs", "true"),
             ("exec.prestop", "/sbin/umount " ++ c.rootfs ++ "/dev")]
  else base

/-- `start` (the launch step): renders and writes the descriptor, spawns
`jail -c`, blocks on the completion channel of the goroutine that waits on
the command, then resolves the outcome. A descriptor-write failure or a
spawn failure prints a message and returns `nil`; a successful completion
sets `runningState` and captures the `jls` id; an abnormal wait error sets
`stoppedState` and is returned. -/
def FreebsdContainer.start (c : FreebsdContainer) (p : Process) (h : Host)
    (w : World) : FreebsdContainer × World × Option RErr :=
  let cmdLine := joinArgs p.args
  let _conf := renderConf c.id (c.startParams cmdLine h.devDirExists)
  if h.confWriteOk then
    if h.spawnOk then
      let w1 : World := { w with launchCount := w.launchCount + 1 }
      if h.waitErr then
        ({ c with state := Status.Stopped }, w1,
          some (RErr.systemError "waiting on jail command"))
      else
        ({ c with state := Status.Running, jailId := h.jlsId }, w1, none)
    else (c, w, none)
  else (c, w, none)

/-- `Start`: reconcile; when `Stopped`, create the fifo (propagating its
error) and call `markCreated` (whose error the source discards); then always
call the launch step; on a launch error, delete the fifo only when the entry
status was `Stopped`, and propagate. -/
def FreebsdContainer.Start (c : FreebsdContainer) (p : Process) (h : Host)
    (w : World) : FreebsdContainer × World × Option RErr :=
  match c.currentStatus h w with
  | (c1, w1, Except.error e) => (c1, w1, some e)
  | (c1, w1, Except.ok status) =>
      let afterCreate : FreebsdContainer × World × Option RErr :=
        if status = Status.Stopped then
          match c1.createExecFifo h w1 with
          | (w2, some e) => (c1, w2, some e)
          | (w2, none) =>
              let r := c1.markCreated h w2
              (r.1, r.2.1, none)
        else (c1, w1, none)
      match afterCreate with
      | (c2, w2, some e) => (c2, w2, some e)
      | (c2, w2, none) =>
          match c2.start p h w2 with
          | (c3, w3, some e) =>
              if status = Status.Stopped then (c3, deleteExecFifo w3, some e)
              else (c3, w3, some e)
          | (c3, w3, none) => (c3, w3, none)

/-- `exec` (the readiness rendezvous): opens the fifo, reads it to end of
file; a non-empty payload removes the fifo and returns success, an empty
payload returns the already-running error. -/
def FreebsdContainer.exec (c : FreebsdContainer) (h : Host) (w : World) :
    FreebsdContainer × World × Option RErr :=
  if h.fifoOpenOk then
    match h.fifoData with
    | none => (c, w, some (RErr.errMsg "read exec fifo"))
    | some data =>
        if data.length > 0 then (c, { w with fifoExists := false }, none)
        else (c, w, some (RErr.errMsg "cannot start an already running container"))
  else (c, w, some (RErr.systemError "open exec fifo for reading"))

/-- `Run`: reconcile; when the status is `Stopped`, `go c.exec()` spawns the
rendezvous wait on a goroutine whose return value has no channel back to
`Run`; then `Start` is called and its result returned. The sequential model
records the goroutine's discarded outcome in the last component (evaluated
against the pre-`Start` world) so theorems can speak about it; `none` there
means no goroutine was spawned. -/
def FreebsdContainer.Run (c : FreebsdContainer) (p : Process) (h : Host)
    (w : World) : FreebsdContainer × World × Option RErr × Option (Option RErr) :=
  match c.currentStatus h w with
  | (c1, w1, Except.error e) => (c1, w1, some e, none)
  | (c1, w1, Except.ok status) =>
      let dropped : Option (Option RErr) :=
        if status = Status.Stopped then some (c1.exec h w1).2.2 else none
      match c1.Start p h w1 with
      | (c2, w2, e) => (c2, w2, e, dropped)

/-- `containerState.destroy`: the state-object definitions live in a file of
this repository that is not under `src/`. Modelled from the spec: the final
step of `Destroy` "deletes the persisted state record regardless of whether
a backend instance existed", and best-effort cleanup failures are
swallowed. -/
def stateDestroy (c : FreebsdContainer) (w : World) :
    FreebsdContainer × World × Option RErr :=
  (c, deleteState w, none)

/-- `Destroy`: when a jail id is known, spawns `jail -r`; a spawn failure
prints a message and returns `nil` immediately (skipping the final state
destruction); otherwise it blocks until the command finishes, collecting a
possible non-exit wait error into a variable the source never reads, then
falls through to `c.state.destroy()`. -/
def FreebsdContainer.Destroy (c : FreebsdContainer) (h : Host) (w : World) :
    FreebsdContainer × World × Option RErr :=
  if c.jailId ≠ "" then
    if h.destroySpawnOk then stateDestroy c w
    else (c, w, none)
  else stateDestroy c w

/-- The run-type cascade as the spec words it, for refinement comparison
with `runType`: no instance known or host no longer lists one — `Stopped`;
identity check fails — `Stopped`; readiness pipe on disk — `Created`;
otherwise `Running`. -/
def claimedRunType (instanceKnown hostListsInstance identityOk pipeExists : Bool) :
    Status :=
  if !instanceKnown || !hostListsInstance then Status.Stopped
  else if !identityOk then Status.Stopped
  else if pipeExists then Status.Created
  else Status.Running

/-- A host oracle on which every query and OS call succeeds. -/
def hostAllOk : Host :=
  { initProcTime := some "20240101000000", jlsId := "7", devDirExists := false,
    rootIdsOk := true, fifoCreateOk := true, chownOk := true,
    stateCreateOk := true, confWriteOk := true, spawnOk := true,
    waitErr := false, destroySpawnOk := true, destroyWaitErr := false,
    fifoOpenOk := true, fifoData := some "0" }

/-- A container with a live, identity-matching jail and the fifo present:
reconciles to `Created` against `hostAllOk`. -/
def contCreatedLive : FreebsdContainer :=
  { id := "c1", rootfs := "/var/containers/c1/root", jailId := "7",
    initProcessStartTime := "20240101000000", state := Status.Created }

/-- A never-started container: no jail id, empty identity token. -/
def contFresh : FreebsdContainer :=
  { id := "c1", rootfs := "/var/containers/c1/root", jailId := "",
    initProcessStartTime := "", state := Status.Stopped }

/-- A container whose remembered identity token is empty although a jail id
is known (as after `markCreated` ran before any rendezvous). -/
def contExecCase : FreebsdContainer :=
  { id := "c1", rootfs := "/var/containers/c1/root", jailId := "7",
    initProcessStartTime := "", state := Status.Created }

/-- The init command of the spec's walk-through scenario. -/
def procTrue : Process := { args := ["/bin/sh", "-c", "true"] }

/-- World with the fifo and the state record on disk, one launch done. -/
def worldFifo : World :=
  { fifoExists := true, stateFileExists := true, launchCount := 1 }

/-- World before any launch: nothing on disk. -/
def worldClean : World :=
  { fifoExists := false, stateFileExists := false, launchCount := 0 }

/-- World with the fifo present but no state record yet. -/
def worldExecCase : World :=
  { fifoExists := true, stateFileExists := false, launchCount := 1 }

/-- Host on which the fifo read returns an empty payload. -/
def hostEmptyFifo : Host := { hostAllOk with fifoData := some "" }

/-- Host on which writing `jail.conf` fails. -/
def hostConfWriteFail : Host := { hostAllOk with confWriteOk := false }

/-- Host on which spawning `jail -r` fails. -/
def hostDestroySpawnFail : Host := { hostAllOk with destroySpawnOk := false }

/-- Host on which spawning `jail -c` fails. -/
def hostSpawnFail : Host := { hostAllOk with spawnOk := false }

/-- Host on which the launch command's wait reports an abnormal error. -/
def hostWaitErr : Host := { hostAllOk with waitErr := true }

/-- A container whose remembered identity token differs from the live one
reported by `hostAllOk`. -/
def contMismatch : FreebsdContainer :=
  { contCreatedLive with initProcessStartTime := "19990101000000" }

/-- Helper: `runType` never reads the cached `state` field, so transitioning
first changes nothing about the resolution. -/
theorem runType_transition (c : FreebsdContainer) (s : Status) (h : Host)
    (w : World) : (transition c s).runType h w = c.runType h w := rfl

/-- Helper: `currentStatus` characterized by `runType` — on a query error it
reports the error and leaves the container, otherwise it transitions to the
resolved status and reports it. -/
theorem currentStatus_runType (c : FreebsdContainer) (h : Host) (w : World) :
    c.currentStatus h w =
      match c.runType h w with
      | (_, some e) => (c, w, Except.error e)
      | (t, none) => (transition c t, w, Except.ok t) := by
  rcases hrt : c.runType h w with ⟨t, e⟩
  cases e with
  | none =>
      simp [FreebsdContainer.currentStatus, FreebsdContainer.refreshState,
        FreebsdContainer.isPaused, hrt, transition]
  | some err =>
      simp [FreebsdContainer.currentStatus, FreebsdContainer.refreshState,
        FreebsdContainer.isPaused, hrt]

/-- C1: for every container, the run-type resolution returns exactly the
state prescribed by the spec's fixed cascade — empty jail id or host no
longer answering for the instance yields `Stopped`, a live identity-token
mismatch yields `Stopped`, a readiness fifo still on disk yields `Created`,
and otherwise `Running`. -/
theorem runType_fixed_cascade (c : FreebsdContainer) (h : Host) (w : World) :
    (c.runType h w).1 =
      claimedRunType (decide (c.jailId ≠ "")) h.initProcTime.isSome
        (decide (h.initProcTime = some c.initProcessStartTime)) w.fifoExists := by
  unfold FreebsdContainer.runType FreebsdContainer.doesInitProcessExist claimedRunType
  by_cases hj : c.jailId = ""
  · simp [hj]
  · cases hip : h.initProcTime with
    | none => simp [hj, hip]
    | some t =>
        by_cases hm : c.initProcessStartTime = t
        · by_cases hf : w.fifoExists = true <;> simp [hj, hip, hm, hf]
        · simp [hj, hip, hm, Ne.symm hm]


/-- C3: when the host still answers for the container's jail id but the live
init-process start time differs from the remembered identity token, the run
type and every status query resolve to `Stopped`, never to `Running`. -/
theorem identity_mismatch_status_stopped (c : FreebsdContainer) (h : Host)
    (w : World) (t : String) (hjail : c.jailId ≠ "")
    (hlist : h.initProcTime = some t) (hmis : c.initProcessStartTime ≠ t) :
    (c.runType h w).1 = Status.Stopped ∧
      (c.currentStatus h w).2.2 = Except.ok Status.Stopped ∧
      (c.currentStatus h w).2.2 ≠ Except.ok Status.Running := by
  have hrt : c.runType h w = (Status.Stopped, none) := by
    simp [FreebsdContainer.runType, FreebsdContainer.doesInitProcessExist,
      hjail, hlist, hmis]
  refine ⟨by rw [hrt], ?_, ?_⟩
  · rw [currentStatus_runType, hrt]
  · rw [currentStatus_runType, hrt]
    simp

/-- Witness for C3 at a concrete mismatching container. -/
theorem identity_mismatch_status_stopped_witness :
    (contMismatch.runType hostAllOk worldFifo).1 = Status.Stopped ∧
      (contMismatch.currentStatus hostAllOk worldFifo).2.2 =
        Except.ok Status.Stopped ∧
      (contMismatch.currentStatus hostAllOk worldFifo).2.2 ≠
        Except.ok Status.Running :=
  identity_mismatch_status_stopped contMismatch hostAllOk worldFifo
    "20240101000000" (by decide) rfl (by decide)

/-- Helper: `refreshState` characterized by `runType`. -/
theorem refreshState_runType (c : FreebsdContainer) (h : Host) (w : World) :
    c.refreshState h w =
      match c.runType h w with
      | (_, some e) => (c, w, some e)
      | (t, none) => (transition c t, w, none) := by
  rcases hrt : c.runType h w with ⟨t, e⟩
  cases e <;>
    simp [FreebsdContainer.refreshState, FreebsdContainer.isPaused, hrt]

/-- C9: `refreshState` leaves the world untouched (its host interactions are
read-only queries), and under an unchanged host a second run resolves the
container to the same state as the first. -/
theorem refreshState_idempotent_readonly (c : FreebsdContainer) (h : Host)
    (w : World) :
    (c.refreshState h w).2.1 = w ∧
      ((c.refreshState h w).1.refreshState h w).1 = (c.refreshState h w).1 ∧
      ((c.refreshState h w).1.refreshState h w).2.1 = w := by
  rcases hrt : c.runType h w with ⟨t, e⟩
  cases e with
  | some err =>
      have h1 : c.refreshState h w = (c, w, some err) := by
        rw [refreshState_runType, hrt]
      simp [h1, hrt, refreshState_runType]
  | none =>
      have h1 : c.refreshState h w = (transition c t, w, none) := by
        rw [refreshState_runType, hrt]
      have h2 : (transition c t).refreshState h w =
          (transition (transition c t) t, w, none) := by
        rw [refreshState_runType, runType_transition, hrt]
      rw [h1]
      refine ⟨rfl, ?_, ?_⟩
      · show ((transition c t).refreshState h w).1 = transition c t
        rw [h2]
        rfl
      · show ((transition c t).refreshState h w).2.1 = w
        rw [h2]

/-- C10: descriptor rendering is deterministic in the map's iteration
order — permuted parameter lists render byte-identical text, because the
formatted lines are sorted lexicographically before concatenation. -/
theorem renderConf_order_independent (cid : String)
    (p1 p2 : List (String × String)) (hperm : p1.Perm p2) :
    renderConf cid p1 = renderConf cid p2 := by
  unfold renderConf
  have hlines : (p1.map renderLine).Perm (p2.map renderLine) :=
    hperm.map renderLine
  have hsorted :
      List.insertionSort (· ≤ ·) (p1.map renderLine) =
        List.insertionSort (· ≤ ·) (p2.map renderLine) :=
    List.eq_of_perm_of_sorted
      (((List.perm_insertionSort _ _).trans hlines).trans
        (List.perm_insertionSort _ _).symm)
      (List.sorted_insertionSort _ _) (List.sorted_insertionSort _ _)
  rw [hsorted]

/-- Witness for C10 on a two-entry parameter map in both iteration orders. -/
theorem renderConf_order_independent_witness :
    ([("path", "/var/c1"), ("command", "true")] : List (String × String)).Perm
        [("command", "true"), ("path", "/var/c1")] ∧
      renderConf "c1" [("path", "/var/c1"), ("command", "true")] =
        renderConf "c1" [("command", "true"), ("path", "/var/c1")] :=
  ⟨List.Perm.swap _ _ _,
    renderConf_order_independent "c1" _ _ (List.Perm.swap _ _ _)⟩

/-- Counterexample to C2: a container whose reconciled status at entry is
`Created` still has the backend launch invoked by `Start` — the call
succeeds and the launch count grows, so a second `Start` does create a
second backend instance. -/
theorem start_on_created_container_relaunches :
    (contCreatedLive.currentStatus hostAllOk worldFifo).2.2 =
        Except.ok Status.Created ∧
      (contCreatedLive.Start procTrue hostAllOk worldFifo).2.2 = none ∧
      (contCreatedLive.Start procTrue hostAllOk worldFifo).2.1.launchCount =
        worldFifo.launchCount + 1 := by
  refine ⟨rfl, rfl, rfl⟩

/-- Counterexample to C4: `exec` reads a non-empty payload, removes the
pipe and returns success, but performs none of the claimed bookkeeping —
the container value is unchanged (status not `Running`, identity token
still empty) and no state record is written. -/
theorem exec_success_without_bookkeeping :
    (contExecCase.exec hostAllOk worldExecCase).2.2 = none ∧
      (contExecCase.exec hostAllOk worldExecCase).2.1.fifoExists = false ∧
      (contExecCase.exec hostAllOk worldExecCase).1 = contExecCase ∧
      contExecCase.state ≠ Status.Running ∧
      contExecCase.initProcessStartTime = "" ∧
      (contExecCase.exec hostAllOk worldExecCase).2.1.stateFileExists = false := by
  refine ⟨rfl, rfl, rfl, by decide, rfl, rfl⟩

/-- Counterexample to C5: a fully successful launch leaves the container in
`Running` state, not `Created`, and the launch step itself persists no
state record. -/
theorem launch_success_records_running_not_created :
    (contFresh.start procTrue hostAllOk worldClean).2.2 = none ∧
      (contFresh.start procTrue hostAllOk worldClean).1.state = Status.Running ∧
      (contFresh.start procTrue hostAllOk worldClean).1.state ≠ Status.Created ∧
      (contFresh.start procTrue hostAllOk worldClean).2.1.stateFileExists =
        false := by
  refine ⟨rfl, rfl, by decide, rfl⟩

/-- Counterexample to C6: on a `Stopped` container whose rendezvous read
ends empty, the spawned `exec` goroutine fails with the already-running
error while `Start` succeeds — `Run` returns success, not the first error
encountered. -/
theorem run_swallows_rendezvous_error :
    (contFresh.currentStatus hostEmptyFifo worldClean).2.2 =
        Except.ok Status.Stopped ∧
      (contFresh.Run procTrue hostEmptyFifo worldClean).2.2.1 = none ∧
      (contFresh.Run procTrue hostEmptyFifo worldClean).2.2.2 =
        some (some (RErr.errMsg "cannot start an already running container")) := by
  refine ⟨rfl, rfl, rfl⟩

/-- Counterexample to C7: when writing the backend descriptor fails during
`Start` on a `Stopped` container, the launch step swallows the failure —
`Start` returns success, the pipe it created is left on disk, and no
backend process was spawned. -/
theorem start_swallows_descriptor_write_failure :
    (contFresh.currentStatus hostConfWriteFail worldClean).2.2 =
        Except.ok Status.Stopped ∧
      (contFresh.Start procTrue hostConfWriteFail worldClean).2.2 = none ∧
      (contFresh.Start procTrue hostConfWriteFail worldClean).2.1.fifoExists =
        true ∧
      (contFresh.Start procTrue hostConfWriteFail worldClean).2.1.launchCount =
        0 := by
  refine ⟨rfl, rfl, rfl, rfl⟩

/-- Counterexample to C8: when a jail id is known but spawning the backend
destroy command fails, `Destroy` returns success immediately and the
persisted state record is not deleted. -/
theorem destroy_spawn_failure_skips_state_deletion :
    (contCreatedLive.Destroy hostDestroySpawnFail worldFifo).2.2 = none ∧
      (contCreatedLive.Destroy hostDestroySpawnFail worldFifo).2.1.stateFileExists =
        true := by
  refine ⟨rfl, rfl⟩

/-- C2 amended: `Start` invokes the backend launch step on every call
regardless of the reconciled entry status — only the readiness-pipe
creation and the `Created` recording are guarded by `Stopped` — so with the
descriptor write and the spawn succeeding (and, when the entry status is
`Stopped`, the pipe creation succeeding), every `Start` call spawns exactly
one more backend instance. -/
theorem start_always_invokes_launch (c : FreebsdContainer) (p : Process)
    (h : Host) (w : World) (st : Status) (hrt : c.runType h w = (st, none))
    (hfifo : st = Status.Stopped →
      h.rootIdsOk = true ∧ h.fifoCreateOk = true ∧ h.chownOk = true)
    (hconf : h.confWriteOk = true) (hspawn : h.spawnOk = true) :
    (c.Start p h w).2.1.launchCount = w.launchCount + 1 := by
  have hcs : c.currentStatus h w = (transition c st, w, Except.ok st) := by
    rw [currentStatus_runType, hrt]
  by_cases hst : st = Status.Stopped
  · obtain ⟨hids, hmk, hch⟩ := hfifo hst
    by_cases hsv : h.stateCreateOk <;> by_cases hw : h.waitErr <;>
      simp [FreebsdContainer.Start, hcs, hst, FreebsdContainer.createExecFifo,
        hids, hmk, hch, FreebsdContainer.markCreated, saveState,
        FreebsdContainer.start, hconf, hspawn, hsv, hw, deleteExecFifo]
  · by_cases hw : h.waitErr <;>
      simp [FreebsdContainer.Start, hcs, hst, FreebsdContainer.start,
        hconf, hspawn, hw, deleteExecFifo]

/-- Witness for the amended C2 on a container observed `Created`. -/
theorem start_always_invokes_launch_witness :
    (contCreatedLive.Start procTrue hostAllOk worldFifo).2.1.launchCount =
      worldFifo.launchCount + 1 :=
  start_always_invokes_launch contCreatedLive procTrue hostAllOk worldFifo
    Status.Created rfl (by decide) rfl rfl

/-- C4 amended: `exec` blocks reading the readiness pipe; a non-empty
payload makes it remove the pipe and return success with the container
value untouched (no identity resolution, no `Running` transition, no state
persistence), while a zero-byte end-of-file read returns the already-running
error and never silently succeeds. -/
theorem exec_rendezvous_contract (c : FreebsdContainer) (h : Host) (w : World)
    (d : String) (hopen : h.fifoOpenOk = true) (hdata : h.fifoData = some d) :
    (0 < d.length →
        c.exec h w = (c, { w with fifoExists := false }, none)) ∧
      (d.length = 0 →
        c.exec h w =
          (c, w, some (RErr.errMsg "cannot start an already running container"))) := by
  constructor <;> intro hd <;>
    simp [FreebsdContainer.exec, hopen, hdata, hd]

/-- Witness for the amended C4 at the scenario payload of one byte. -/
theorem exec_rendezvous_contract_witness :
    contExecCase.exec hostAllOk worldExecCase =
      (contExecCase, { worldExecCase with fifoExists := false }, none) :=
  (exec_rendezvous_contract contExecCase hostAllOk worldExecCase "0"
    rfl rfl).1 (by decide)

/-- C5 amended: the `Created` state is recorded and persisted by
`markCreated` — invoked by `Start` before the launch — not by the launch
step; the launch step waits for the backend command on a completion channel
and then records `Running` (capturing the listed instance id) on normal
completion, or forces `Stopped` and returns the error on an abnormal early
exit; the launch step itself never writes the state record. -/
theorem created_recorded_before_launch (c : FreebsdContainer) (p : Process)
    (h : Host) (w : World) (hsave : h.stateCreateOk = true)
    (hconf : h.confWriteOk = true) (hspawn : h.spawnOk = true) :
    ((c.markCreated h w).1.state = Status.Created ∧
        (c.markCreated h w).2.1.stateFileExists = true) ∧
      (h.waitErr = false →
        (c.start p h w).1.state = Status.Running ∧
          (c.start p h w).1.jailId = h.jlsId ∧ (c.start p h w).2.2 = none) ∧
      (h.waitErr = true →
        (c.start p h w).1.state = Status.Stopped ∧
          ((c.start p h w).2.2).isSome = true) ∧
      (c.start p h w).2.1.stateFileExists = w.stateFileExists := by
  refine ⟨⟨?_, ?_⟩, ?_, ?_, ?_⟩
  · simp [FreebsdContainer.markCreated, saveState, hsave]
  · simp [FreebsdContainer.markCreated, saveState, hsave]
  · intro hw; simp [FreebsdContainer.start, hconf, hspawn, hw]
  · intro hw; simp [FreebsdContainer.start, hconf, hspawn, hw]
  · by_cases hw : h.waitErr <;> simp [FreebsdContainer.start, hconf, hspawn, hw]

/-- Witness for the amended C5 on the fresh container. -/
theorem created_recorded_before_launch_witness :
    (contFresh.markCreated hostAllOk worldClean).1.state = Status.Created ∧
      (contFresh.start procTrue hostAllOk worldClean).1.state =
        Status.Running :=
  ⟨((created_recorded_before_launch contFresh procTrue hostAllOk worldClean
      rfl rfl rfl).1).1,
    (((created_recorded_before_launch contFresh procTrue hostAllOk worldClean
      rfl rfl rfl).2).1 rfl).1⟩

/-- C6 amended: `Run` begins the rendezvous wait (spawning `exec` on a
goroutine) before calling `Start`, but only when the entry status is
`Stopped`, and that goroutine's outcome is discarded — `Run` returns
exactly `Start`'s error, not the first error encountered by either. -/
theorem run_returns_only_start_error (c : FreebsdContainer) (p : Process)
    (h : Host) (w : World) (st : Status) (hrt : c.runType h w = (st, none)) :
    (c.Run p h w).2.2.1 = ((transition c st).Start p h w).2.2 ∧
      ((c.Run p h w).2.2.2 =
        if st = Status.Stopped then some (((transition c st).exec h w).2.2)
        else none) := by
  have hcs : c.currentStatus h w = (transition c st, w, Except.ok st) := by
    rw [currentStatus_runType, hrt]
  rcases hS : (transition c st).Start p h w with ⟨c2, w2, e⟩
  simp [FreebsdContainer.Run, hcs, hS]

/-- Witness for the amended C6 on the stopped container with an empty
rendezvous payload. -/
theorem run_returns_only_start_error_witness :
    (contFresh.Run procTrue hostEmptyFifo worldClean).2.2.1 =
        ((transition contFresh Status.Stopped).Start procTrue hostEmptyFifo
          worldClean).2.2 ∧
      ((contFresh.Run procTrue hostEmptyFifo worldClean).2.2.2 =
        if Status.Stopped = Status.Stopped
        then some (((transition contFresh Status.Stopped).exec hostEmptyFifo
          worldClean).2.2)
        else none) :=
  run_returns_only_start_error contFresh procTrue hostEmptyFifo worldClean
    Status.Stopped rfl

/-- C7 amended: during `Start` on a `Stopped` container, a descriptor-write
failure or a backend spawn failure is printed and swallowed — `Start`
returns success and leaves the pipe it created on disk; only an abnormal
error from waiting on the spawned backend command propagates, and in that
case `Start` does delete the pipe. -/
theorem start_launch_failure_disposition (c : FreebsdContainer) (p : Process)
    (h : Host) (w : World) (hrt : c.runType h w = (Status.Stopped, none))
    (hids : h.rootIdsOk = true) (hmk : h.fifoCreateOk = true)
    (hch : h.chownOk = true) :
    (h.confWriteOk = false →
        (c.Start p h w).2.2 = none ∧ (c.Start p h w).2.1.fifoExists = true) ∧
      (h.confWriteOk = true → h.spawnOk = false →
        (c.Start p h w).2.2 = none ∧ (c.Start p h w).2.1.fifoExists = true) ∧
      (h.confWriteOk = true → h.spawnOk = true → h.waitErr = true →
        ((c.Start p h w).2.2).isSome = true ∧
          (c.Start p h w).2.1.fifoExists = false) := by
  have hcs : c.currentStatus h w =
      (transition c Status.Stopped, w, Except.ok Status.Stopped) := by
    rw [currentStatus_runType, hrt]
  refine ⟨?_, ?_, ?_⟩
  · intro hcw
    by_cases hsv : h.stateCreateOk <;>
      simp [FreebsdContainer.Start, hcs, FreebsdContainer.createExecFifo,
        hids, hmk, hch, FreebsdContainer.markCreated, saveState, hsv,
        FreebsdContainer.start, hcw, deleteExecFifo]
  · intro hcw hsp
    by_cases hsv : h.stateCreateOk <;>
      simp [FreebsdContainer.Start, hcs, FreebsdContainer.createExecFifo,
        hids, hmk, hch, FreebsdContainer.markCreated, saveState, hsv,
        FreebsdContainer.start, hcw, hsp, deleteExecFifo]
  · intro hcw hsp hw
    by_cases hsv : h.stateCreateOk <;>
      simp [FreebsdContainer.Start, hcs, FreebsdContainer.createExecFifo,
        hids, hmk, hch, FreebsdContainer.markCreated, saveState, hsv,
        FreebsdContainer.start, hcw, hsp, hw, deleteExecFifo]

/-- Witness for the amended C7 on an abnormal backend wait error. -/
theorem start_launch_failure_disposition_witness :
    ((contFresh.Start procTrue hostWaitErr worldClean).2.2).isSome = true ∧
      (contFresh.Start procTrue hostWaitErr worldClean).2.1.fifoExists =
        false :=
  (start_launch_failure_disposition contFresh procTrue hostWaitErr worldClean
    rfl rfl rfl rfl).2.2 rfl rfl rfl

/-- C8 amended: `Destroy` deletes the persisted state record whenever no
jail id is known or the backend destroy command spawns successfully — the
destroy command's own wait error is collected into a variable the source
never reads again, so it cannot prevent the deletion — but a spawn failure
of the destroy command makes `Destroy` return success without deleting the
record. -/
theorem destroy_deletes_state_unless_spawn_fails (c : FreebsdContainer)
    (h : Host) (w : World)
    (hok : c.jailId = "" ∨ h.destroySpawnOk = true) :
    (c.Destroy h w).2.1.stateFileExists = false ∧
      (c.Destroy h w).2.2 = none := by
  rcases hok with hj | hd
  · simp [FreebsdContainer.Destroy, hj, stateDestroy, deleteState]
  · by_cases hj : c.jailId = "" <;>
      simp [FreebsdContainer.Destroy, hj, hd, stateDestroy, deleteState]

/-- Witness for the amended C8 on a live jail with a working destroy. -/
theorem destroy_deletes_state_unless_spawn_fails_witness :
    (contCreatedLive.Destroy hostAllOk worldFifo).2.1.stateFileExists =
        false ∧
      (contCreatedLive.Destroy hostAllOk worldFifo).2.2 = none :=
  destroy_deletes_state_unless_spawn_fails contCreatedLive hostAllOk worldFifo
    (Or.inr rfl)
